import Mathlib

/-!
Shallow embedding of the `rx5808_gui` package (config.py, controller.py,
scanner.py) used to settle the specification claims about the channel
table, the RX5808 tune/read-back operations and the channel-scan engine.

Conventions of the embedding:
* Python integers appearing here are all non-negative, so they are
  modelled as `Nat`.
* Python strings are Lean `String`s; `pyStrNat` mirrors Python's `str()`
  on a non-negative integer, `pyHex` mirrors `hex()`, and `pyReplaceMHz`
  mirrors `.replace("MHz", "")` (removal of every occurrence).
* `controller.py` defines the class `Rx5808Controller` twice; the second
  definition shadows the first, so the embedding follows the second one
  (lines 159-327).  Its bus side effects (`_set_register` calls and the
  trailing `GPIO.output(..., LOW)` calls of `set_frequency`) are recorded
  as an explicit trace of `BusAction`s; hardware reads are passed in as
  arguments (`current_frequency` takes the value read from register 1).
* `scanner.py`'s `ChannelScanner.run`/`_probe` interact with a stop event
  set concurrently, with the controller, and with an external capture
  subprocess.  These interactions are modelled by an oracle `ScanEnv`:
  `stopAtTop i` is the value of `self._stop_event.is_set()` at the
  top-of-loop check of iteration `i`, and `probe i` abstracts the i-th
  `_probe` call (which of its internal stop checks fired, whether
  `set_frequency` raised, and otherwise the captured sample size; every
  stop check inside `_probe` leads to the same dummy return value).
-/

/-- Little-endian decimal digits of `n`, with `fuel ≥ n` ensuring
termination; mirrors repeated divmod by 10. -/
def toDecAux : Nat → Nat → List Char
  | 0, _ => []
  | _ + 1, 0 => []
  | fuel + 1, n + 1 => Nat.digitChar ((n + 1) % 10) :: toDecAux fuel ((n + 1) / 10)

/-- Python `str()` of a non-negative integer: its decimal representation. -/
def pyStrNat (n : Nat) : String :=
  if n = 0 then "0" else String.mk (toDecAux n n).reverse

/-- Numeric value of a decimal digit character. -/
def decCharVal (c : Char) : Nat := c.toNat - 48

/-- Value of a little-endian decimal digit string: left inverse of `toDecAux`. -/
def ofDecDigits : List Char → Nat
  | [] => 0
  | c :: cs => decCharVal c + 10 * ofDecDigits cs

/-- Little-endian hexadecimal digits of `n`, with `fuel ≥ n`. -/
def toHexAux : Nat → Nat → List Char
  | 0, _ => []
  | _ + 1, 0 => []
  | fuel + 1, n + 1 => Nat.digitChar ((n + 1) % 16) :: toHexAux fuel ((n + 1) / 16)

/-- Python `hex()` of a non-negative integer ("0x" followed by lowercase digits). -/
def pyHex (n : Nat) : String :=
  if n = 0 then "0x0" else "0x" ++ String.mk (toHexAux n n).reverse

/-- Whether `pat` occurs at the head of `s` (character-wise prefix test). -/
def matchesAt : List Char → List Char → Bool
  | [], _ => true
  | _ :: _, [] => false
  | p :: ps, c :: cs => p == c && matchesAt ps cs

/-- Remove every (left-to-right, non-overlapping) occurrence of `pat`;
`fuel ≥ length of the text` ensures termination. -/
def replaceAllAux (pat : List Char) : Nat → List Char → List Char
  | _, [] => []
  | 0, l => l
  | fuel + 1, c :: cs =>
    if matchesAt pat (c :: cs) then replaceAllAux pat fuel (List.drop (pat.length - 1) cs)
    else c :: replaceAllAux pat fuel cs

/-- Python `s.replace("MHz", "")`. -/
def pyReplaceMHz (s : String) : String :=
  String.mk (replaceAllAux ['M', 'H', 'z'] s.data.length s.data)

/-! ### config.py -/

/-- `CHANNEL_VALUES` of config.py: the 20-bit register tuning words, in
channel-table order (Raceband, A, B, E, F/Airwave, D). -/
def CHANNEL_VALUES : List Nat := [
  0x281D, 0x288F, 0x2902, 0x2914, 0x2987, 0x2999, 0x2A0C, 0x2A1E,
  0x2A05, 0x299B, 0x2991, 0x2987, 0x291D, 0x2913, 0x2909, 0x289F,
  0x2903, 0x290C, 0x2916, 0x291F, 0x2989, 0x2992, 0x299C, 0x2A05,
  0x2895, 0x288B, 0x2881, 0x2817, 0x2A0F, 0x2A19, 0x2A83, 0x2A8D,
  0x2906, 0x2910, 0x291A, 0x2984, 0x298E, 0x2998, 0x2A02, 0x2A0C,
  0x2609, 0x261C, 0x268E, 0x2701, 0x2713, 0x2786, 0x2798, 0x280B]

/-- `CHANNEL_FREQUENCIES` of config.py: frequencies in MHz, index-aligned
with `CHANNEL_VALUES`. -/
def CHANNEL_FREQUENCIES : List Nat := [
  5658, 5695, 5732, 5769, 5806, 5843, 5880, 5917,
  5865, 5845, 5825, 5805, 5785, 5765, 5745, 5725,
  5733, 5752, 5771, 5790, 5809, 5828, 5847, 5866,
  5705, 5685, 5665, 5645, 5885, 5905, 5925, 5945,
  5740, 5760, 5780, 5800, 5820, 5840, 5860, 5880,
  5362, 5399, 5436, 5473, 5510, 5547, 5584, 5621]

/-- `channel_label` of config.py: default display name of channel `index`. -/
def channel_label (index : Nat) : String := "FPV " ++ pyStrNat (index + 1)

/-! ### controller.py (second, effective definition of `Rx5808Controller`) -/

/-- The three control lines driven by the controller (`pin_data`,
`pin_ss`, `pin_clock`). -/
inductive Line
  | data
  | ss
  | clock
deriving DecidableEq

/-- One observable bus side effect of `set_frequency`: a `_set_register`
call, or one of the trailing `GPIO.output(pin, GPIO.LOW)` calls. -/
inductive BusAction
  | regWrite (reg value : Nat)
  | lineLow (l : Line)
deriving DecidableEq

/-- One GPIO line operation of the bit-banged SPI protocol. -/
inductive GpioOp
  | output (l : Line) (high : Bool)
deriving DecidableEq

/-- `_spi_sendbit_1` / `_spi_sendbit_0`: clock low, data to the bit value,
clock high, clock low (settle delays are not modelled). -/
def sendbit (b : Bool) : List GpioOp :=
  [GpioOp.output Line.clock false, GpioOp.output Line.data b,
   GpioOp.output Line.clock true, GpioOp.output Line.clock false]

/-- GPIO expansion of `_set_register reg value`: deselect/select, 4
address bits LSB first, a write flag bit `1`, 20 value bits LSB first
(the source shifts `value` right each round, i.e. sends `value.testBit i`),
then deselect/select to latch. -/
def set_register_ops (reg value : Nat) : List GpioOp :=
  [GpioOp.output Line.ss true, GpioOp.output Line.ss false]
    ++ (List.range 4).flatMap (fun i => sendbit (reg.testBit i))
    ++ sendbit true
    ++ (List.range 20).flatMap (fun i => sendbit (value.testBit i))
    ++ [GpioOp.output Line.ss true, GpioOp.output Line.ss false]

/-- The `freq_mhz : int | str` argument of `set_frequency`. -/
inductive FreqArg
  | int (n : Nat)
  | str (s : String)

/-- Python `str(freq_mhz)` on the argument. -/
def freqArgToStr : FreqArg → String
  | FreqArg.int n => pyStrNat n
  | FreqArg.str s => s

/-- The lookup loop of `set_frequency`: first (lowest-index) entry of the
frequency column whose `str(freq)` equals `freq_str` gives the aligned
register value (`enumerate(CHANNEL_FREQUENCIES)` indexing into
`CHANNEL_VALUES`, here over the zipped table). -/
def lookup_target : List (Nat × Nat) → String → Option Nat
  | [], _ => none
  | (freq, val) :: rest, fs =>
    if pyStrNat freq = fs then some val else lookup_target rest fs

/-- The frequency column zipped with the value column (both length 48). -/
def CHANNEL_TABLE : List (Nat × Nat) := CHANNEL_FREQUENCIES.zip CHANNEL_VALUES

/-- `Rx5808Controller.set_frequency`: strip "MHz", look the string up in
the table, raise `ValueError` (as `Except.error`, with no bus action)
on a miss, and otherwise write register 8 with 0x03F40, register 1 with
the matched value, drive the three lines low, and return `freq_str`. -/
def set_frequency (freq_mhz : FreqArg) : List BusAction × Except String String :=
  let freq_str := pyReplaceMHz (freqArgToStr freq_mhz)
  match lookup_target CHANNEL_TABLE freq_str with
  | none => ([], Except.error ("Unknown frequency: " ++ freqArgToStr freq_mhz))
  | some target =>
    ([BusAction.regWrite 0x08 0x03F40, BusAction.regWrite 0x01 target,
      BusAction.lineLow Line.ss, BusAction.lineLow Line.clock, BusAction.lineLow Line.data],
     Except.ok freq_str)

/-- The lookup loop of `current_frequency`: first (lowest-index) entry of
the value column equal to the raw register value gives the aligned
frequency. -/
def lookup_frequency : List (Nat × Nat) → Nat → Option Nat
  | [], _ => none
  | (val, freq) :: rest, data =>
    if val = data then some freq else lookup_frequency rest data

/-- `Rx5808Controller.current_frequency`, with `data` the 20-bit value
read back from register 1 (`_get_register(0x01)`). -/
def current_frequency (data : Nat) : String :=
  match lookup_frequency (CHANNEL_VALUES.zip CHANNEL_FREQUENCIES) data with
  | some freq => pyStrNat freq ++ "MHz"
  | none => "Unknown (" ++ pyHex data ++ ")"

/-! ### scanner.py -/

/-- The `ChannelInfo` dataclass of scanner.py. -/
structure ChannelInfo where
  index : Nat
  label : String
  frequency : Nat
  live : Bool
  sample_size : Nat
deriving DecidableEq

/-- Outcome of one `_probe(idx, freq)` call, as seen from `run`'s loop:
* `stoppedAtEntry`: the stop check at the top of `_probe` (line 99) was
  already set — no tune, dummy dead result;
* `tuneFail`: `controller.set_frequency(freq)` raised (lines 109-119) —
  dummy dead result;
* `stoppedInWait`: one of the stop checks in the 20-slice settle wait or
  just after it (lines 122-140) fired, after a successful tune — dummy
  dead result, no capture;
* `sample size`: the capture subprocess ran and `size` bytes ended up in
  the temporary file (0 on timeout, failure, or a stop request arriving
  during the capture, lines 154-194). -/
inductive ProbeOutcome
  | stoppedAtEntry
  | tuneFail
  | stoppedInWait
  | sample (size : Nat)
deriving DecidableEq

/-- Oracle for the concurrent environment of one scan: `stopAtTop i` is
the value of `self._stop_event.is_set()` at the top-of-loop check of
iteration `i` (line 69); `probe i` abstracts iteration `i`'s `_probe`
call. -/
structure ScanEnv where
  stopAtTop : Nat → Bool
  probe : Nat → ProbeOutcome

/-- The `ChannelInfo` returned by `_probe(idx, freq)`: dummy dead info on
an internal stop or a tune failure, otherwise classified by
`live = size >= self.min_signal_size`. -/
def probeResult (min_signal_size idx freq : Nat) : ProbeOutcome → ChannelInfo
  | ProbeOutcome.stoppedAtEntry => ⟨idx, channel_label idx, freq, false, 0⟩
  | ProbeOutcome.tuneFail => ⟨idx, channel_label idx, freq, false, 0⟩
  | ProbeOutcome.stoppedInWait => ⟨idx, channel_label idx, freq, false, 0⟩
  | ProbeOutcome.sample size =>
    ⟨idx, channel_label idx, freq, decide (min_signal_size ≤ size), size⟩

/-- One item of the observable behaviour of a scan: an `on_progress`
callback (with the results gathered so far and the status text), a
`controller.set_frequency` call (`ok = false` when it raised), or the
launch of the capture subprocess for channel `idx`. -/
inductive ScanItem
  | progress (results : List ChannelInfo) (status : String)
  | tuneCall (freq : Nat) (ok : Bool)
  | capture (idx : Nat)
deriving DecidableEq

/-- The controller/subprocess interactions performed inside one `_probe`
call, per outcome. -/
def probeItems (idx freq : Nat) : ProbeOutcome → List ScanItem
  | ProbeOutcome.stoppedAtEntry => []
  | ProbeOutcome.tuneFail => [ScanItem.tuneCall freq false]
  | ProbeOutcome.stoppedInWait => [ScanItem.tuneCall freq true]
  | ProbeOutcome.sample _ => [ScanItem.tuneCall freq true, ScanItem.capture idx]

/-- `total = len(CHANNEL_FREQUENCIES)` in `run`. -/
def scanTotal : Nat := CHANNEL_FREQUENCIES.length

/-- Status text of the `on_progress` call before `_probe` (line 74). -/
def testingStatus (idx freq : Nat) : String :=
  "Scanning (" ++ pyStrNat (idx + 1) ++ "/" ++ pyStrNat scanTotal ++ ") - Testing "
    ++ channel_label idx ++ " (" ++ pyStrNat freq ++ "MHz)"

/-- Status text of the `on_progress` call after `_probe` (lines 79-80). -/
def resultStatus (idx freq : Nat) (live : Bool) : String :=
  "Scanning (" ++ pyStrNat (idx + 1) ++ "/" ++ pyStrNat scanTotal ++ ") - "
    ++ channel_label idx ++ " (" ++ pyStrNat freq ++ "MHz): "
    ++ (if live then "LIVE" else "no signal")

/-- Status text of the initial `on_progress` call (line 62). -/
def startingStatus : String := "Scanning (0/" ++ pyStrNat scanTotal ++ ") - Starting..."

/-- Status text emitted on a top-of-loop cancellation (line 70). -/
def cancelledStatus : String := "Scan cancelled"

/-- Status text emitted after auto-selecting the best channel (line 87). -/
def completedStatus (freq : Nat) : String :=
  "Completed. Best channel: " ++ pyStrNat freq ++ "MHz"

/-- Status text emitted when no channel was live (line 89). -/
def noLiveStatus : String := "Completed. No live signals"

/-- The channel loop of `ChannelScanner.run` (lines 68-89) over the
remaining `(idx, freq)` pairs of `enumerate(CHANNEL_FREQUENCIES)`,
carrying `results` and `first_live`.  On loop exhaustion it performs the
auto-select tune and emits the terminal `Completed` status. -/
def scanChannels (env : ScanEnv) (min_signal_size : Nat) (auto_select : Bool) :
    List (Nat × Nat) → List ChannelInfo → Option Nat → List ScanItem
  | [], results, first_live =>
    match first_live with
    | some f => [ScanItem.tuneCall f true, ScanItem.progress results (completedStatus f)]
    | none => [ScanItem.progress results noLiveStatus]
  | (idx, freq) :: rest, results, first_live =>
    if env.stopAtTop idx then
      [ScanItem.progress results cancelledStatus]
    else
      let info := probeResult min_signal_size idx freq (env.probe idx)
      let results2 := results ++ [info]
      ScanItem.progress results (testingStatus idx freq) ::
        (probeItems idx freq (env.probe idx) ++
          (ScanItem.progress results2 (resultStatus idx freq info.live) ::
            scanChannels env min_signal_size auto_select rest results2
              (if info.live && first_live.isNone && auto_select then some freq
               else first_live)))

/-- `ChannelScanner.run`: the initial progress callback followed by the
channel loop started on the full table with empty results and no
`first_live` candidate.  The `try`/`except` wrapper (lines 59 and 90-95)
catches exceptions that the modelled code never raises — `_probe`
absorbs per-channel tune failures itself — so it does not appear. -/
def runScan (env : ScanEnv) (min_signal_size : Nat) (auto_select : Bool) : List ScanItem :=
  ScanItem.progress [] startingStatus ::
    scanChannels env min_signal_size auto_select CHANNEL_FREQUENCIES.enum [] none

/-! ### Observation helpers over scan traces and bus traces -/

/-- Status texts of the `on_progress` calls of a trace, in order. -/
def statuses (tr : List ScanItem) : List String :=
  tr.filterMap fun it =>
    match it with
    | ScanItem.progress _ s => some s
    | _ => none

/-- Frequencies passed to `controller.set_frequency`, in order. -/
def tuneFreqs (tr : List ScanItem) : List Nat :=
  tr.filterMap fun it =>
    match it with
    | ScanItem.tuneCall f _ => some f
    | _ => none

/-- Channel indices whose capture subprocess was launched, in order. -/
def captures (tr : List ScanItem) : List Nat :=
  tr.filterMap fun it =>
    match it with
    | ScanItem.capture i => some i
    | _ => none

/-- Results carried by the final `on_progress` call of a trace. -/
def lastResults (tr : List ScanItem) : Option (List ChannelInfo) :=
  match tr.getLast? with
  | some (ScanItem.progress r _) => some r
  | _ => none

/-- Whether a status text is the `Error` status family of the scanner
(`f"Scan error: {exc}"`, line 92). -/
def isScanError (s : String) : Bool := matchesAt "Scan error:".data s.data

/-- Register writes of a bus trace, in order. -/
def regWrites (tr : List BusAction) : List (Nat × Nat) :=
  tr.filterMap fun a =>
    match a with
    | BusAction.regWrite r v => some (r, v)
    | _ => none

/-- The `ChannelInfo` recorded for the enumerated channel `p` under
environment `env` and threshold `m`. -/
def infoOf (env : ScanEnv) (m : Nat) (p : Nat × Nat) : ChannelInfo :=
  probeResult m p.1 p.2 (env.probe p.1)

/-- Final value of `first_live` after folding the loop's update over the
enumerated channels. -/
def finalFL (env : ScanEnv) (m : Nat) (a : Bool) (chans : List (Nat × Nat))
    (fl : Option Nat) : Option Nat :=
  chans.foldl
    (fun acc p => if (infoOf env m p).live && acc.isNone && a then some p.2 else acc) fl

/-- Results recorded by the first `k` loop iterations. -/
def partialResults (env : ScanEnv) (m k : Nat) : List ChannelInfo :=
  (CHANNEL_FREQUENCIES.enum.take k).map (infoOf env m)

/-- Results recorded by a scan whose loop ran to completion. -/
def fullResults (env : ScanEnv) (m : Nat) : List ChannelInfo :=
  CHANNEL_FREQUENCIES.enum.map (infoOf env m)

/-- Frequencies of the per-channel `set_frequency` calls of a full loop. -/
def perChannelTunes (env : ScanEnv) : List Nat :=
  CHANNEL_FREQUENCIES.enum.flatMap fun p => tuneFreqs (probeItems p.1 p.2 (env.probe p.1))

/-- Terminal status of a naturally completed loop, from the final value
of `first_live`. -/
def terminalStatus : Option Nat → String
  | some f => completedStatus f
  | none => noLiveStatus

/-- Auto-select tune calls of a naturally completed loop, from the final
value of `first_live`. -/
def terminalTunes : Option Nat → List Nat
  | some f => [f]
  | none => []

/-! ### Concrete environments used by witnesses and counterexamples -/

/-- Stop requested while channel 0's probe is pending: the stop event is
observed first inside `_probe(0, ...)`, before any tune of that probe. -/
def envStopDuringFirstProbe : ScanEnv where
  stopAtTop := fun i => decide (1 ≤ i)
  probe := fun _ => ProbeOutcome.stoppedAtEntry

/-- Stop requested during the settle wait of the last channel's probe
(channel 47), after channel 0 was found live. -/
def envStopDuringLastProbe : ScanEnv where
  stopAtTop := fun _ => false
  probe := fun i =>
    if i = 0 then ProbeOutcome.sample 5000
    else if i = 47 then ProbeOutcome.stoppedInWait
    else ProbeOutcome.sample 0

/-- Stop requested between iterations: first observed at the top-of-loop
check of iteration 3. -/
def envStopAtThree : ScanEnv where
  stopAtTop := fun i => decide (3 ≤ i)
  probe := fun _ => ProbeOutcome.sample 0

/-- Stop requested between iterations: first observed at the top-of-loop
check of iteration 2. -/
def envStopAtTwo : ScanEnv where
  stopAtTop := fun i => decide (2 ≤ i)
  probe := fun _ => ProbeOutcome.sample 0

/-- No cancellation; channels 3 and 10 are live (6000-byte samples), all
others are dead. -/
def envLiveAt3And10 : ScanEnv where
  stopAtTop := fun _ => false
  probe := fun i => if i = 3 ∨ i = 10 then ProbeOutcome.sample 6000 else ProbeOutcome.sample 0

/-- No cancellation; the tune of channel 5 raises, every other channel
probes dead. -/
def envTuneFailAt5 : ScanEnv where
  stopAtTop := fun _ => false
  probe := fun i => if i = 5 then ProbeOutcome.tuneFail else ProbeOutcome.sample 0

instance : DecidableEq (Except String String) := fun a b =>
  match a, b with
  | Except.ok x, Except.ok y =>
    if h : x = y then isTrue (by rw [h]) else isFalse (by intro hc; cases hc; exact h rfl)
  | Except.error x, Except.error y =>
    if h : x = y then isTrue (by rw [h]) else isFalse (by intro hc; cases hc; exact h rfl)
  | Except.ok _, Except.error _ => isFalse (by intro hc; cases hc)
  | Except.error _, Except.ok _ => isFalse (by intro hc; cases hc)

/-! ### Decimal rendering: `pyStrNat` is injective and "MHz"-free -/

theorem decCharVal_digitChar : ∀ d, d < 10 → decCharVal (Nat.digitChar d) = d := by decide

theorem digitChar_ne_M : ∀ d, d < 10 → Nat.digitChar d ≠ 'M' := by decide

theorem ofDec_toDecAux : ∀ fuel n, n ≤ fuel → ofDecDigits (toDecAux fuel n) = n := by
  intro fuel
  induction fuel with
  | zero =>
    intro n hn
    have h0 : n = 0 := Nat.le_zero.mp hn
    subst h0; rfl
  | succ fuel ih =>
    intro n hn
    match n with
    | 0 => rfl
    | n + 1 =>
      have hmod : (n + 1) % 10 < 10 := Nat.mod_lt _ (by norm_num)
      have hdiv : (n + 1) / 10 ≤ fuel :=
        Nat.le_of_lt_succ (Nat.lt_of_lt_of_le (Nat.div_lt_self (Nat.succ_pos n) (by norm_num)) hn)
      calc ofDecDigits (toDecAux (fuel + 1) (n + 1))
          = decCharVal (Nat.digitChar ((n + 1) % 10))
              + 10 * ofDecDigits (toDecAux fuel ((n + 1) / 10)) := rfl
        _ = (n + 1) % 10 + 10 * ((n + 1) / 10) := by
              rw [decCharVal_digitChar _ hmod, ih _ hdiv]
        _ = n + 1 := Nat.mod_add_div (n + 1) 10

theorem pyStrNat_data_of_pos (n : Nat) (hn : n ≠ 0) :
    (pyStrNat n).data = (toDecAux n n).reverse := by
  rw [pyStrNat, if_neg hn]

theorem ofDec_pyStrNat (n : Nat) : ofDecDigits (pyStrNat n).data.reverse = n := by
  by_cases hn : n = 0
  · subst hn; decide
  · rw [pyStrNat_data_of_pos n hn, List.reverse_reverse]
    exact ofDec_toDecAux n n le_rfl

theorem pyStrNat_inj (a b : Nat) (h : pyStrNat a = pyStrNat b) : a = b := by
  rw [← ofDec_pyStrNat a, ← ofDec_pyStrNat b, h]

theorem toDecAux_ne_M : ∀ fuel n c, c ∈ toDecAux fuel n → c ≠ 'M' := by
  intro fuel
  induction fuel with
  | zero => intro n c hc; simp [toDecAux] at hc
  | succ fuel ih =>
    intro n c hc
    match n with
    | 0 => simp [toDecAux] at hc
    | n + 1 =>
      rw [toDecAux] at hc
      rcases List.mem_cons.mp hc with h | h
      · subst h; exact digitChar_ne_M _ (Nat.mod_lt _ (by norm_num))
      · exact ih _ _ h

theorem pyStrNat_ne_M (n : Nat) : ∀ c ∈ (pyStrNat n).data, c ≠ 'M' := by
  by_cases hn : n = 0
  · subst hn
    intro c hc
    have hc0 : c = '0' := by simpa [pyStrNat] using hc
    subst hc0; decide
  · rw [pyStrNat_data_of_pos n hn]
    intro c hc
    exact toDecAux_ne_M _ _ _ (List.mem_reverse.mp hc)

theorem matchesAt_MHz_ne (c : Char) (cs : List Char) (hc : c ≠ 'M') :
    matchesAt ['M', 'H', 'z'] (c :: cs) = false := by
  have hbeq : ('M' == c) = false := beq_eq_false_iff_ne.mpr fun he => hc he.symm
  simp [matchesAt, hbeq]

theorem replace_of_ne_M : ∀ (l : List Char) (fuel : Nat), l.length ≤ fuel →
    (∀ c ∈ l, c ≠ 'M') → replaceAllAux ['M', 'H', 'z'] fuel l = l := by
  intro l
  induction l with
  | nil => intro fuel _ _; cases fuel <;> rfl
  | cons c cs ih =>
    intro fuel hlen hM
    match fuel with
    | 0 => simp at hlen
    | fuel + 1 =>
      have hc : c ≠ 'M' := hM c (List.mem_cons_self c cs)
      rw [replaceAllAux, if_neg (by simp [matchesAt_MHz_ne c cs hc])]
      have := ih fuel (by simpa using Nat.le_of_succ_le_succ hlen)
        (fun d hd => hM d (List.mem_cons_of_mem _ hd))
      rw [this]

theorem replace_MHz_suffix : ∀ (l : List Char) (fuel : Nat), l.length + 3 ≤ fuel →
    (∀ c ∈ l, c ≠ 'M') →
    replaceAllAux ['M', 'H', 'z'] fuel (l ++ ['M', 'H', 'z']) = l := by
  intro l
  induction l with
  | nil =>
    intro fuel hlen _
    obtain ⟨f, rfl⟩ : ∃ f, fuel = f + 1 := ⟨fuel - 1, by omega⟩
    show replaceAllAux ['M', 'H', 'z'] (f + 1) ('M' :: ['H', 'z']) = []
    rw [replaceAllAux, if_pos (by decide)]
    show replaceAllAux ['M', 'H', 'z'] f [] = []
    cases f <;> rfl
  | cons c cs ih =>
    intro fuel hlen hM
    obtain ⟨f, rfl⟩ : ∃ f, fuel = f + 1 := ⟨fuel - 1, by omega⟩
    have hc : c ≠ 'M' := hM c (List.mem_cons_self c cs)
    show replaceAllAux ['M', 'H', 'z'] (f + 1) (c :: (cs ++ ['M', 'H', 'z'])) = c :: cs
    rw [replaceAllAux, if_neg (by simp [matchesAt_MHz_ne c _ hc])]
    have := ih f (by simp at hlen ⊢; omega) (fun d hd => hM d (List.mem_cons_of_mem _ hd))
    rw [this]

theorem pyReplaceMHz_pyStrNat (n : Nat) : pyReplaceMHz (pyStrNat n) = pyStrNat n := by
  unfold pyReplaceMHz
  rw [replace_of_ne_M _ _ le_rfl (pyStrNat_ne_M n)]

theorem pyReplaceMHz_MHz_suffix (n : Nat) :
    pyReplaceMHz (pyStrNat n ++ "MHz") = pyStrNat n := by
  unfold pyReplaceMHz
  have hdata : (pyStrNat n ++ "MHz").data = (pyStrNat n).data ++ ['M', 'H', 'z'] := by
    rw [String.data_append]
  have h3 : (['M', 'H', 'z'] : List Char).length = 3 := rfl
  rw [hdata, List.length_append, h3,
    replace_MHz_suffix _ _ le_rfl (pyStrNat_ne_M n)]

theorem lookup_target_eq_none (l : List (Nat × Nat)) (s : String)
    (h : ∀ p ∈ l, pyStrNat p.1 ≠ s) : lookup_target l s = none := by
  induction l with
  | nil => rfl
  | cons p rest ih =>
    obtain ⟨freq, val⟩ := p
    rw [lookup_target, if_neg (h (freq, val) (List.mem_cons_self _ _))]
    exact ih fun q hq => h q (List.mem_cons_of_mem _ hq)

/-! ### List and trace-extraction helper lemmas -/

theorem getLast?_cons_of_some {α : Type} (x : α) {l : List α} {y : α}
    (h : l.getLast? = some y) : (x :: l).getLast? = some y := by
  cases l with
  | nil => simp at h
  | cons a as => rw [List.getLast?_cons_cons]; exact h

theorem getLast?_append_of_some {α : Type} (l₁ : List α) {l₂ : List α} {y : α}
    (h : l₂.getLast? = some y) : (l₁ ++ l₂).getLast? = some y := by
  induction l₁ with
  | nil => simpa using h
  | cons x xs ih => rw [List.cons_append]; exact getLast?_cons_of_some x ih

@[simp] theorem statuses_nil : statuses [] = [] := rfl

@[simp] theorem statuses_progress_cons (r : List ChannelInfo) (s : String) (tr : List ScanItem) :
    statuses (ScanItem.progress r s :: tr) = s :: statuses tr := rfl

@[simp] theorem statuses_tune_cons (f : Nat) (ok : Bool) (tr : List ScanItem) :
    statuses (ScanItem.tuneCall f ok :: tr) = statuses tr := rfl

@[simp] theorem statuses_capture_cons (i : Nat) (tr : List ScanItem) :
    statuses (ScanItem.capture i :: tr) = statuses tr := rfl

@[simp] theorem statuses_append (l₁ l₂ : List ScanItem) :
    statuses (l₁ ++ l₂) = statuses l₁ ++ statuses l₂ := by
  simp [statuses]

@[simp] theorem tuneFreqs_nil : tuneFreqs [] = [] := rfl

@[simp] theorem tuneFreqs_progress_cons (r : List ChannelInfo) (s : String) (tr : List ScanItem) :
    tuneFreqs (ScanItem.progress r s :: tr) = tuneFreqs tr := rfl

@[simp] theorem tuneFreqs_tune_cons (f : Nat) (ok : Bool) (tr : List ScanItem) :
    tuneFreqs (ScanItem.tuneCall f ok :: tr) = f :: tuneFreqs tr := rfl

@[simp] theorem tuneFreqs_capture_cons (i : Nat) (tr : List ScanItem) :
    tuneFreqs (ScanItem.capture i :: tr) = tuneFreqs tr := rfl

@[simp] theorem tuneFreqs_append (l₁ l₂ : List ScanItem) :
    tuneFreqs (l₁ ++ l₂) = tuneFreqs l₁ ++ tuneFreqs l₂ := by
  simp [tuneFreqs]

@[simp] theorem captures_nil : captures [] = [] := rfl

@[simp] theorem captures_progress_cons (r : List ChannelInfo) (s : String) (tr : List ScanItem) :
    captures (ScanItem.progress r s :: tr) = captures tr := rfl

@[simp] theorem captures_tune_cons (f : Nat) (ok : Bool) (tr : List ScanItem) :
    captures (ScanItem.tuneCall f ok :: tr) = captures tr := rfl

@[simp] theorem captures_capture_cons (i : Nat) (tr : List ScanItem) :
    captures (ScanItem.capture i :: tr) = i :: captures tr := rfl

@[simp] theorem captures_append (l₁ l₂ : List ScanItem) :
    captures (l₁ ++ l₂) = captures l₁ ++ captures l₂ := by
  simp [captures]

@[simp] theorem statuses_probeItems (idx freq : Nat) (o : ProbeOutcome) :
    statuses (probeItems idx freq o) = [] := by
  cases o <;> rfl

theorem probeResult_index (m idx freq : Nat) (o : ProbeOutcome) :
    (probeResult m idx freq o).index = idx := by
  cases o <;> rfl

/-! ### Unfolding lemmas for the scan loop -/

theorem scanChannels_stop {env : ScanEnv} {m : Nat} {a : Bool} {idx freq : Nat}
    {rest : List (Nat × Nat)} {results : List ChannelInfo} {fl : Option Nat}
    (h : env.stopAtTop idx = true) :
    scanChannels env m a ((idx, freq) :: rest) results fl =
      [ScanItem.progress results cancelledStatus] := by
  simp [scanChannels, h]

theorem scanChannels_go {env : ScanEnv} {m : Nat} {a : Bool} {idx freq : Nat}
    {rest : List (Nat × Nat)} {results : List ChannelInfo} {fl : Option Nat}
    (h : env.stopAtTop idx = false) :
    scanChannels env m a ((idx, freq) :: rest) results fl =
      ScanItem.progress results (testingStatus idx freq) ::
        (probeItems idx freq (env.probe idx) ++
          (ScanItem.progress (results ++ [infoOf env m (idx, freq)])
              (resultStatus idx freq (infoOf env m (idx, freq)).live) ::
            scanChannels env m a rest (results ++ [infoOf env m (idx, freq)])
              (if (infoOf env m (idx, freq)).live && fl.isNone && a then some freq
               else fl))) := by
  simp [scanChannels, h, infoOf]

/-- Behaviour of the loop when the stop flag is first observed at the
top-of-loop check of the (0-based) `k`-th remaining iteration: the trace
ends with the Cancelled event carrying one recorded entry per earlier
iteration, all statuses are testing/result pairs followed by the
cancelled status, and the only controller/subprocess interactions are
those of the earlier iterations' probes. -/
theorem scanChannels_cancel (env : ScanEnv) (m : Nat) (a : Bool) :
    ∀ (chans : List (Nat × Nat)) (k : Nat) (results : List ChannelInfo) (fl : Option Nat),
      k < chans.length →
      (∀ j, j < k → env.stopAtTop (chans.getD j (0, 0)).1 = false) →
      env.stopAtTop (chans.getD k (0, 0)).1 = true →
      (scanChannels env m a chans results fl).getLast? =
          some (ScanItem.progress (results ++ (chans.take k).map (infoOf env m))
            cancelledStatus) ∧
      statuses (scanChannels env m a chans results fl) =
          (chans.take k).flatMap
              (fun p => [testingStatus p.1 p.2, resultStatus p.1 p.2 (infoOf env m p).live])
            ++ [cancelledStatus] ∧
      tuneFreqs (scanChannels env m a chans results fl) =
          (chans.take k).flatMap (fun p => tuneFreqs (probeItems p.1 p.2 (env.probe p.1))) ∧
      captures (scanChannels env m a chans results fl) =
          (chans.take k).flatMap (fun p => captures (probeItems p.1 p.2 (env.probe p.1))) := by
  intro chans
  induction chans with
  | nil => intro k results fl hk; simp at hk
  | cons p rest ih =>
    obtain ⟨idx, freq⟩ := p
    intro k results fl hk hbefore hstop
    match k with
    | 0 =>
      rw [scanChannels_stop (by simpa using hstop)]
      simp
    | k + 1 =>
      have h0 : env.stopAtTop idx = false := by simpa using hbefore 0 (Nat.succ_pos k)
      have hk' : k < rest.length := Nat.lt_of_succ_lt_succ hk
      have hbefore' : ∀ j, j < k → env.stopAtTop (rest.getD j (0, 0)).1 = false :=
        fun j hj => hbefore (j + 1) (Nat.succ_lt_succ hj)
      have hstop' : env.stopAtTop (rest.getD k (0, 0)).1 = true := hstop
      obtain ⟨ihLast, ihStatuses, ihTunes, ihCaptures⟩ :=
        ih k (results ++ [infoOf env m (idx, freq)])
          (if (infoOf env m (idx, freq)).live && fl.isNone && a then some freq else fl)
          hk' hbefore' hstop'
      rw [scanChannels_go h0]
      refine ⟨?_, ?_, ?_, ?_⟩
      · refine getLast?_cons_of_some _ (getLast?_append_of_some _
          (getLast?_cons_of_some _ ?_))
        rw [ihLast]
        simp [List.append_assoc]
      · simp only [statuses_progress_cons, statuses_append, statuses_probeItems,
          List.nil_append]
        rw [ihStatuses]
        simp
      · simp only [tuneFreqs_progress_cons, tuneFreqs_append, List.nil_append]
        rw [ihTunes]
        simp
      · simp only [captures_progress_cons, captures_append, List.nil_append]
        rw [ihCaptures]
        simp

theorem finalFL_cons (env : ScanEnv) (m : Nat) (a : Bool) (idx freq : Nat)
    (rest : List (Nat × Nat)) (fl : Option Nat) :
    finalFL env m a ((idx, freq) :: rest) fl =
      finalFL env m a rest
        (if (infoOf env m (idx, freq)).live && fl.isNone && a then some freq else fl) := rfl

theorem finalFL_of_some (env : ScanEnv) (m : Nat) (a : Bool) :
    ∀ (chans : List (Nat × Nat)) (f : Nat), finalFL env m a chans (some f) = some f := by
  intro chans
  induction chans with
  | nil => intro f; rfl
  | cons p rest ih =>
    intro f
    obtain ⟨idx, freq⟩ := p
    rw [finalFL_cons]
    have hcond : ¬(((infoOf env m (idx, freq)).live
        && (some f : Option Nat).isNone && a) = true) := by simp
    rw [if_neg hcond]
    exact ih f

theorem finalFL_true_eq_find (env : ScanEnv) (m : Nat) :
    ∀ chans : List (Nat × Nat),
      finalFL env m true chans none =
        (chans.find? fun p => (infoOf env m p).live).map Prod.snd := by
  intro chans
  induction chans with
  | nil => rfl
  | cons p rest ih =>
    obtain ⟨idx, freq⟩ := p
    cases hl : (infoOf env m (idx, freq)).live with
    | true =>
      rw [finalFL_cons]
      have hcond : ((infoOf env m (idx, freq)).live
          && (none : Option Nat).isNone && true) = true := by simp [hl]
      rw [if_pos hcond, finalFL_of_some]
      have hfind : List.find? (fun p => (infoOf env m p).live) ((idx, freq) :: rest)
          = some (idx, freq) := List.find?_cons_of_pos _ (by simpa using hl)
      rw [hfind]
      rfl
    | false =>
      rw [finalFL_cons]
      have hcond : ¬(((infoOf env m (idx, freq)).live
          && (none : Option Nat).isNone && true) = true) := by simp [hl]
      rw [if_neg hcond, ih]
      have hfind : List.find? (fun p => (infoOf env m p).live) ((idx, freq) :: rest)
          = List.find? (fun p => (infoOf env m p).live) rest :=
        List.find?_cons_of_neg _ (by simp [hl])
      rw [hfind]

/-- Behaviour of the loop when the stop flag is never observed at a
top-of-loop check: the loop runs to completion, records one entry per
channel, performs the auto-select tune exactly when the folded
`first_live` is set, and ends with the matching `Completed` status. -/
theorem scanChannels_complete (env : ScanEnv) (m : Nat) (a : Bool) :
    ∀ (chans : List (Nat × Nat)) (results : List ChannelInfo) (fl : Option Nat),
      (∀ p ∈ chans, env.stopAtTop p.1 = false) →
      (scanChannels env m a chans results fl).getLast? =
          some (ScanItem.progress (results ++ chans.map (infoOf env m))
            (terminalStatus (finalFL env m a chans fl))) ∧
      statuses (scanChannels env m a chans results fl) =
          chans.flatMap
              (fun p => [testingStatus p.1 p.2, resultStatus p.1 p.2 (infoOf env m p).live])
            ++ [terminalStatus (finalFL env m a chans fl)] ∧
      tuneFreqs (scanChannels env m a chans results fl) =
          chans.flatMap (fun p => tuneFreqs (probeItems p.1 p.2 (env.probe p.1)))
            ++ terminalTunes (finalFL env m a chans fl) ∧
      captures (scanChannels env m a chans results fl) =
          chans.flatMap (fun p => captures (probeItems p.1 p.2 (env.probe p.1))) := by
  intro chans
  induction chans with
  | nil =>
    intro results fl _
    cases fl <;> simp [scanChannels, finalFL, terminalStatus, terminalTunes]
  | cons p rest ih =>
    obtain ⟨idx, freq⟩ := p
    intro results fl hns
    have h0 : env.stopAtTop idx = false := hns (idx, freq) (List.mem_cons_self _ _)
    obtain ⟨ihLast, ihStatuses, ihTunes, ihCaptures⟩ :=
      ih (results ++ [infoOf env m (idx, freq)])
        (if (infoOf env m (idx, freq)).live && fl.isNone && a then some freq else fl)
        (fun q hq => hns q (List.mem_cons_of_mem _ hq))
    rw [scanChannels_go h0, finalFL_cons]
    refine ⟨?_, ?_, ?_, ?_⟩
    · refine getLast?_cons_of_some _ (getLast?_append_of_some _
        (getLast?_cons_of_some _ ?_))
      rw [ihLast]
      simp [List.append_assoc]
    · simp only [statuses_progress_cons, statuses_append, statuses_probeItems,
        List.nil_append]
      rw [ihStatuses]
      simp
    · simp only [tuneFreqs_progress_cons, tuneFreqs_append, List.nil_append]
      rw [ihTunes]
      simp
    · simp only [captures_progress_cons, captures_append, List.nil_append]
      rw [ihCaptures]
      simp

/-! ### Enumeration index lemmas -/

theorem enumFrom_getD : ∀ (l : List Nat) (s k : Nat), k < l.length →
    (List.enumFrom s l).getD k (0, 0) = (s + k, l.getD k 0) := by
  intro l
  induction l with
  | nil => intro s k h; simp at h
  | cons x xs ih =>
    intro s k hk
    match k with
    | 0 => simp [List.enumFrom]
    | k + 1 =>
      have harith : s + 1 + k = s + (k + 1) := by omega
      rw [List.enumFrom]
      simp only [List.getD_cons_succ]
      rw [ih (s + 1) k (Nat.lt_of_succ_lt_succ hk), harith]

theorem enum_getD (l : List Nat) (k : Nat) (hk : k < l.length) :
    l.enum.getD k (0, 0) = (k, l.getD k 0) := by
  have h := enumFrom_getD l 0 k hk
  rw [Nat.zero_add] at h
  exact h

theorem mem_enum_fst_lt {l : List Nat} {p : Nat × Nat} (hp : p ∈ l.enum) :
    p.1 < l.length := by
  obtain ⟨i, f⟩ := p
  rw [List.enum_eq_zip_range] at hp
  exact List.mem_range.mp (List.of_mem_zip hp).1

theorem enum_take_map_fst (l : List Nat) (k : Nat) (hk : k ≤ l.length) :
    (l.enum.take k).map Prod.fst = List.range k := by
  rw [List.map_take, List.enum_map_fst, List.take_range, Nat.min_eq_left hk]

theorem infoOf_index (env : ScanEnv) (m : Nat) (p : Nat × Nat) :
    (infoOf env m p).index = p.1 :=
  probeResult_index m p.1 p.2 (env.probe p.1)

theorem partialResults_length (env : ScanEnv) (m k : Nat) (hk : k ≤ scanTotal) :
    (partialResults env m k).length = k := by
  unfold partialResults
  rw [List.length_map, List.length_take, List.enum_length]
  exact Nat.min_eq_left hk

theorem partialResults_map_index (env : ScanEnv) (m k : Nat) (hk : k ≤ scanTotal) :
    (partialResults env m k).map ChannelInfo.index = List.range k := by
  unfold partialResults
  rw [List.map_map]
  have hfun : (ChannelInfo.index ∘ infoOf env m) = Prod.fst :=
    funext fun p => infoOf_index env m p
  rw [hfun, enum_take_map_fst _ _ hk]

/-! ### Claim C1 (channel-table uniqueness) -/

/-- Claim C1, counterexample: the claim that no two distinct indices of
the 48-entry table share a frequency or share a register value is false —
indices 6 and 39 both carry frequency 5880, and indices 4 and 11 both
carry the register value 0x2987. -/
theorem channel_table_unique_counterexample :
    CHANNEL_FREQUENCIES.getD 6 0 = CHANNEL_FREQUENCIES.getD 39 0 ∧
    CHANNEL_FREQUENCIES.getD 6 0 = 5880 ∧ (6 : Nat) ≠ 39 ∧
    CHANNEL_VALUES.getD 4 0 = CHANNEL_VALUES.getD 11 0 ∧
    CHANNEL_VALUES.getD 4 0 = 0x2987 ∧ (4 : Nat) ≠ 11 := by decide

/-- Claim C1, amended: the table is not duplicate-free.  For distinct
indices `i < j < 48`, the frequencies coincide exactly for the pair
(6, 39) (5880 MHz, Raceband 7 = Band F 8), and the register values
coincide exactly for the pairs (4, 11) (0x2987), (6, 39) (0x2A0C) and
(8, 23) (0x2A05); every other pair differs in both columns. -/
theorem channel_table_duplicate_pairs :
    ∀ j, j < 48 → ∀ i, i < j →
      ((CHANNEL_FREQUENCIES.getD i 0 = CHANNEL_FREQUENCIES.getD j 0 ↔ (i = 6 ∧ j = 39)) ∧
       (CHANNEL_VALUES.getD i 0 = CHANNEL_VALUES.getD j 0 ↔
         ((i = 4 ∧ j = 11) ∨ (i = 6 ∧ j = 39) ∨ (i = 8 ∧ j = 23)))) := by decide

/-- Witness for `channel_table_duplicate_pairs` at the pair (6, 39). -/
theorem channel_table_duplicate_pairs_witness :
    (6 : Nat) < 39 ∧ (39 : Nat) < 48 ∧
    ((CHANNEL_FREQUENCIES.getD 6 0 = CHANNEL_FREQUENCIES.getD 39 0 ↔
        ((6 : Nat) = 6 ∧ (39 : Nat) = 39)) ∧
     (CHANNEL_VALUES.getD 6 0 = CHANNEL_VALUES.getD 39 0 ↔
        (((6 : Nat) = 4 ∧ (39 : Nat) = 11) ∨ ((6 : Nat) = 6 ∧ (39 : Nat) = 39) ∨
         ((6 : Nat) = 8 ∧ (39 : Nat) = 23)))) :=
  ⟨by decide, by decide, channel_table_duplicate_pairs 39 (by decide) 6 (by decide)⟩

/-! ### Claim C2 (tune writes and read-back round trip) -/

/-- Claim C2, counterexample: for the table frequency 5805 the round trip
fails.  `set_frequency(5805)` writes the register sequence
(0x08, 0x03F40) then (0x01, 0x2987), but a read-back of register 0x01
yielding 0x2987 makes `current_frequency` return "5806MHz" (index 4, the
first occurrence of 0x2987 in the value column), not "5805MHz". -/
theorem tune_roundtrip_counterexample :
    (5805 ∈ CHANNEL_FREQUENCIES) ∧
    regWrites (set_frequency (FreqArg.int 5805)).1 = [(0x08, 0x03F40), (0x01, 0x2987)] ∧
    current_frequency 0x2987 = "5806MHz" ∧ "5806MHz" ≠ "5805MHz" := by decide

/-- Claim C2, amended: for every frequency `f` of the table,
`set_frequency(f)` performs exactly the register writes (0x08, 0x03F40)
then (0x01, v) where `v` is the register value aligned with the first
occurrence of `f`, and returns the decimal string of `f`.  A read-back of
register 0x01 yielding that same `v` makes `current_frequency` return
"{f}MHz" for every table frequency except 5805 (reported as "5806MHz")
and 5866 (reported as "5865MHz"), whose register values occur earlier in
the value column paired with a different frequency. -/
theorem tune_register_writes_roundtrip :
    ∀ f ∈ CHANNEL_FREQUENCIES,
      regWrites (set_frequency (FreqArg.int f)).1 =
        [(0x08, 0x03F40),
         (0x01, CHANNEL_VALUES.getD (CHANNEL_FREQUENCIES.findIdx (fun g => g == f)) 0)] ∧
      (set_frequency (FreqArg.int f)).2 = Except.ok (pyStrNat f) ∧
      (¬(f = 5805 ∨ f = 5866) →
        current_frequency
            (CHANNEL_VALUES.getD (CHANNEL_FREQUENCIES.findIdx (fun g => g == f)) 0) =
          pyStrNat f ++ "MHz") := by decide

/-- Witness for `tune_register_writes_roundtrip` at f = 5769. -/
theorem tune_register_writes_roundtrip_witness :
    (5769 ∈ CHANNEL_FREQUENCIES) ∧
    (regWrites (set_frequency (FreqArg.int 5769)).1 =
        [(0x08, 0x03F40),
         (0x01, CHANNEL_VALUES.getD (CHANNEL_FREQUENCIES.findIdx (fun g => g == 5769)) 0)] ∧
      (set_frequency (FreqArg.int 5769)).2 = Except.ok (pyStrNat 5769) ∧
      (¬((5769 : Nat) = 5805 ∨ (5769 : Nat) = 5866) →
        current_frequency
            (CHANNEL_VALUES.getD (CHANNEL_FREQUENCIES.findIdx (fun g => g == 5769)) 0) =
          pyStrNat 5769 ++ "MHz")) :=
  ⟨by decide, tune_register_writes_roundtrip 5769 (by decide)⟩

/-! ### Claim C5 (unknown frequency: error, zero bus writes) -/

/-- Claim C5: for every frequency `f` absent from the channel table,
`set_frequency(f)` raises `ValueError` ("Unknown frequency: {f}") and
performs zero bus actions — no register write and no line-level change
happens before the failure. -/
theorem set_frequency_unknown_no_writes (f : Nat) (hf : f ∉ CHANNEL_FREQUENCIES) :
    set_frequency (FreqArg.int f) =
      ([], Except.error ("Unknown frequency: " ++ pyStrNat f)) := by
  have hnone : lookup_target CHANNEL_TABLE (pyReplaceMHz (pyStrNat f)) = none := by
    rw [pyReplaceMHz_pyStrNat]
    refine lookup_target_eq_none _ _ ?_
    rintro ⟨pf, pv⟩ hp heq
    have hmem : pf ∈ CHANNEL_FREQUENCIES := by
      simp only [CHANNEL_TABLE] at hp
      exact (List.of_mem_zip hp).1
    exact hf (pyStrNat_inj _ _ heq ▸ hmem)
  simp only [set_frequency, freqArgToStr, hnone]

/-- Witness for `set_frequency_unknown_no_writes` at f = 9999. -/
theorem set_frequency_unknown_no_writes_witness :
    (9999 ∉ CHANNEL_FREQUENCIES) ∧
    set_frequency (FreqArg.int 9999) = ([], Except.error "Unknown frequency: 9999") :=
  ⟨by decide, set_frequency_unknown_no_writes 9999 (by decide)⟩

/-! ### Claim C9 (string and suffixed argument forms) -/

/-- Claim C9: for every table frequency `f`, `set_frequency` accepts the
integer `f`, the string `str(f)` and the string `str(f) + "MHz"`, and
each call returns the decimal string `str(f)` (unsuffixed), because the
lookup compares the stripped string against `str(freq)` per entry. -/
theorem set_frequency_argument_forms :
    ∀ f ∈ CHANNEL_FREQUENCIES,
      (set_frequency (FreqArg.int f)).2 = Except.ok (pyStrNat f) ∧
      (set_frequency (FreqArg.str (pyStrNat f))).2 = Except.ok (pyStrNat f) ∧
      (set_frequency (FreqArg.str (pyStrNat f ++ "MHz"))).2 = Except.ok (pyStrNat f) := by
  decide

/-- Witness for `set_frequency_argument_forms` at f = 5658. -/
theorem set_frequency_argument_forms_witness :
    (5658 ∈ CHANNEL_FREQUENCIES) ∧
    ((set_frequency (FreqArg.int 5658)).2 = Except.ok (pyStrNat 5658) ∧
      (set_frequency (FreqArg.str (pyStrNat 5658))).2 = Except.ok (pyStrNat 5658) ∧
      (set_frequency (FreqArg.str (pyStrNat 5658 ++ "MHz"))).2 = Except.ok (pyStrNat 5658)) :=
  ⟨by decide, set_frequency_argument_forms 5658 (by decide)⟩

/-! ### Claim C10 (duplicates resolve to the lowest index) -/

/-- Claim C10: both lookups are first-match.  For every table frequency
`f`, `set_frequency(f)` emits exactly the bus actions writing
(0x08, 0x03F40) then (0x01, `CHANNEL_VALUES[i]`) for the smallest `i`
with `CHANNEL_FREQUENCIES[i] = f`, then drives the three lines low; and
for every table value `v`, `current_frequency` reading `v` returns
`CHANNEL_FREQUENCIES[j]` for the smallest `j` with
`CHANNEL_VALUES[j] = v`. -/
theorem lookup_resolves_to_lowest_index :
    (∀ f ∈ CHANNEL_FREQUENCIES,
      (set_frequency (FreqArg.int f)).1 =
        [BusAction.regWrite 0x08 0x03F40,
         BusAction.regWrite 0x01
           (CHANNEL_VALUES.getD (CHANNEL_FREQUENCIES.findIdx (fun g => g == f)) 0),
         BusAction.lineLow Line.ss, BusAction.lineLow Line.clock,
         BusAction.lineLow Line.data]) ∧
    (∀ v ∈ CHANNEL_VALUES,
      current_frequency v =
        pyStrNat (CHANNEL_FREQUENCIES.getD (CHANNEL_VALUES.findIdx (fun w => w == v)) 0)
          ++ "MHz") := by decide

/-- Witness for `lookup_resolves_to_lowest_index` at the duplicated
frequency 5805 and the duplicated register value 0x2987. -/
theorem lookup_resolves_to_lowest_index_witness :
    (5805 ∈ CHANNEL_FREQUENCIES) ∧ (0x2987 ∈ CHANNEL_VALUES) ∧
    (set_frequency (FreqArg.int 5805)).1 =
      [BusAction.regWrite 0x08 0x03F40, BusAction.regWrite 0x01 0x2987,
       BusAction.lineLow Line.ss, BusAction.lineLow Line.clock, BusAction.lineLow Line.data] ∧
    current_frequency 0x2987 = "5806MHz" :=
  ⟨by decide, by decide,
   lookup_resolves_to_lowest_index.1 5805 (by decide),
   lookup_resolves_to_lowest_index.2 0x2987 (by decide)⟩

/-! ### Status text discrimination lemmas -/

theorem statuses_runScan (env : ScanEnv) (m : Nat) (a : Bool) :
    statuses (runScan env m a) =
      startingStatus :: statuses (scanChannels env m a CHANNEL_FREQUENCIES.enum [] none) := rfl

theorem tuneFreqs_runScan (env : ScanEnv) (m : Nat) (a : Bool) :
    tuneFreqs (runScan env m a) =
      tuneFreqs (scanChannels env m a CHANNEL_FREQUENCIES.enum [] none) := rfl

theorem captures_runScan (env : ScanEnv) (m : Nat) (a : Bool) :
    captures (runScan env m a) =
      captures (scanChannels env m a CHANNEL_FREQUENCIES.enum [] none) := rfl

theorem completedStatus_data_head (f : Nat) : (completedStatus f).data.head? = some 'C' := rfl

theorem terminalStatus_data_head (o : Option Nat) :
    (terminalStatus o).data.head? = some 'C' := by
  cases o <;> rfl

theorem startingStatus_data_head : startingStatus.data.head? = some 'S' := rfl

theorem testingStatus_data_head (i f : Nat) : (testingStatus i f).data.head? = some 'S' := rfl

theorem resultStatus_data_head (i f : Nat) (b : Bool) :
    (resultStatus i f b).data.head? = some 'S' := rfl

theorem cancelledStatus_data_head : cancelledStatus.data.head? = some 'S' := rfl

theorem completedStatus_ne_of_head (f : Nat) {s : String} (hs : s.data.head? = some 'S') :
    completedStatus f ≠ s := by
  intro h
  have h1 : (some 'C' : Option Char) = some 'S' := by
    calc (some 'C' : Option Char) = (completedStatus f).data.head? :=
          (completedStatus_data_head f).symm
      _ = s.data.head? := by rw [h]
      _ = some 'S' := hs
  exact absurd h1 (by decide)

theorem cancelledStatus_ne_terminal (o : Option Nat) : cancelledStatus ≠ terminalStatus o := by
  intro h
  have h1 : (some 'S' : Option Char) = some 'C' := by
    calc (some 'S' : Option Char) = cancelledStatus.data.head? := rfl
      _ = (terminalStatus o).data.head? := by rw [h]
      _ = some 'C' := terminalStatus_data_head o
  exact absurd h1 (by decide)

theorem cancelledStatus_get4 : cancelledStatus.data.get? 4 = some ' ' := rfl

theorem cancelledStatus_ne_of_get4 {s : String} (hs : s.data.get? 4 = some 'n') :
    cancelledStatus ≠ s := by
  intro h
  have h1 : (some ' ' : Option Char) = some 'n' := by
    calc (some ' ' : Option Char) = cancelledStatus.data.get? 4 := rfl
      _ = s.data.get? 4 := by rw [h]
      _ = some 'n' := hs
  exact absurd h1 (by decide)

theorem startingStatus_get4 : startingStatus.data.get? 4 = some 'n' := rfl

theorem testingStatus_get4 (i f : Nat) : (testingStatus i f).data.get? 4 = some 'n' := rfl

theorem resultStatus_get4 (i f : Nat) (b : Bool) :
    (resultStatus i f b).data.get? 4 = some 'n' := rfl

theorem isScanError_starting : isScanError startingStatus = false := rfl

theorem isScanError_testing (i f : Nat) : isScanError (testingStatus i f) = false := rfl

theorem isScanError_result (i f : Nat) (b : Bool) :
    isScanError (resultStatus i f b) = false := rfl

theorem isScanError_cancelled : isScanError cancelledStatus = false := rfl

theorem isScanError_terminal (o : Option Nat) : isScanError (terminalStatus o) = false := by
  cases o <;> rfl

/-! ### Claim C3 (cancellation result count) -/

/-- Claim C3, counterexample: a cancellation arriving while channel 0's
probe is pending (before the first probe returns, so zero channels were
probed — no tune call and no capture was ever issued) does not yield an
empty Cancelled result sequence: the final event is Cancelled carrying
one entry, the dead dummy record of channel 0. -/
theorem scan_cancel_immediately_counterexample :
    tuneFreqs (runScan envStopDuringFirstProbe 5000 true) = [] ∧
    captures (runScan envStopDuringFirstProbe 5000 true) = [] ∧
    (runScan envStopDuringFirstProbe 5000 true).getLast? =
      some (ScanItem.progress [⟨0, "FPV 1", 5658, false, 0⟩] cancelledStatus) := by decide

/-- Claim C3, amended: if the stop flag is first observed at the
top-of-loop check of iteration `k` (0 ≤ k < 48), the scan's final event
is the Cancelled status carrying exactly `k` entries, one per loop
iteration entered before the observation, in index order.  `k` counts
loop iterations rather than completed probes: an iteration whose probe
was cut short by the stop request contributes a dead dummy entry, so a
cancellation arriving during channel `j`'s probe yields `j + 1` entries,
not `j`. -/
theorem scan_cancelled_partial_results (env : ScanEnv) (m : Nat) (a : Bool) (k : Nat)
    (hk : k < scanTotal)
    (hbefore : ∀ j, j < k → env.stopAtTop j = false)
    (hstop : env.stopAtTop k = true) :
    (runScan env m a).getLast? =
        some (ScanItem.progress (partialResults env m k) cancelledStatus) ∧
    (partialResults env m k).length = k ∧
    (partialResults env m k).map ChannelInfo.index = List.range k := by
  have hlen : k < CHANNEL_FREQUENCIES.enum.length := by
    rw [List.enum_length]; exact hk
  have hbefore' : ∀ j, j < k →
      env.stopAtTop ((CHANNEL_FREQUENCIES.enum.getD j (0, 0)).1) = false := by
    intro j hj
    rw [enum_getD _ j (Nat.lt_trans hj hk)]
    exact hbefore j hj
  have hstop' : env.stopAtTop ((CHANNEL_FREQUENCIES.enum.getD k (0, 0)).1) = true := by
    rw [enum_getD _ k hk]
    exact hstop
  obtain ⟨hLast, _, _, _⟩ :=
    scanChannels_cancel env m a CHANNEL_FREQUENCIES.enum k [] none hlen hbefore' hstop'
  refine ⟨?_, partialResults_length env m k (Nat.le_of_lt hk),
    partialResults_map_index env m k (Nat.le_of_lt hk)⟩
  unfold runScan
  refine getLast?_cons_of_some _ ?_
  rw [hLast]
  simp [partialResults]

/-- Witness for `scan_cancelled_partial_results`: the stop flag becomes
set between iterations 2 and 3, so Cancelled carries exactly 3 results
for channels 0, 1, 2. -/
theorem scan_cancelled_partial_results_witness :
    ((3 < scanTotal) ∧ (∀ j, j < 3 → envStopAtThree.stopAtTop j = false) ∧
      envStopAtThree.stopAtTop 3 = true) ∧
    ((runScan envStopAtThree 5000 true).getLast? =
        some (ScanItem.progress (partialResults envStopAtThree 5000 3) cancelledStatus) ∧
      (partialResults envStopAtThree 5000 3).length = 3 ∧
      (partialResults envStopAtThree 5000 3).map ChannelInfo.index = List.range 3) :=
  ⟨⟨by decide, by decide, by decide⟩,
   scan_cancelled_partial_results envStopAtThree 5000 true 3 (by decide) (by decide) (by decide)⟩

/-! ### Claim C4 (no activity after an observed stop) -/

/-- Claim C4, counterexample: the stop flag becomes set while the last
channel's (index 47) probe is in its settle wait, and is observed there
(`envStopDuringLastProbe.probe 47 = stoppedInWait`); channel 0 was live
earlier.  The engine nevertheless performs the auto-select tune of
5658 MHz after that observation and terminates with a Completed status,
not Cancelled. -/
theorem scan_stop_during_last_probe_counterexample :
    envStopDuringLastProbe.probe 47 = ProbeOutcome.stoppedInWait ∧
    (statuses (runScan envStopDuringLastProbe 5000 true)).getLast? =
      some (completedStatus 5658) ∧
    (tuneFreqs (runScan envStopDuringLastProbe 5000 true)).getLast? = some 5658 := by decide

/-- Claim C4, amended: when the stop flag is first observed at the
top-of-loop check of iteration `k`, the scan performs no tune call, no
probe capture and no auto-select after that observation — every tune and
capture belongs to the iterations before `k` — and no Completed status is
ever emitted.  The original claim fails only when the stop is first
observed inside the final channel's probe: no top-of-loop check remains,
the loop completes, and auto-select tuning plus a Completed status still
follow (see the counterexample). -/
theorem scan_no_actions_after_observed_stop (env : ScanEnv) (m : Nat) (a : Bool) (k : Nat)
    (hk : k < scanTotal)
    (hbefore : ∀ j, j < k → env.stopAtTop j = false)
    (hstop : env.stopAtTop k = true) :
    statuses (runScan env m a) =
        startingStatus ::
          ((CHANNEL_FREQUENCIES.enum.take k).flatMap
              (fun p => [testingStatus p.1 p.2, resultStatus p.1 p.2 (infoOf env m p).live])
            ++ [cancelledStatus]) ∧
    tuneFreqs (runScan env m a) =
        (CHANNEL_FREQUENCIES.enum.take k).flatMap
          (fun p => tuneFreqs (probeItems p.1 p.2 (env.probe p.1))) ∧
    captures (runScan env m a) =
        (CHANNEL_FREQUENCIES.enum.take k).flatMap
          (fun p => captures (probeItems p.1 p.2 (env.probe p.1))) ∧
    ∀ f, completedStatus f ∉ statuses (runScan env m a) := by
  have hlen : k < CHANNEL_FREQUENCIES.enum.length := by
    rw [List.enum_length]; exact hk
  have hbefore' : ∀ j, j < k →
      env.stopAtTop ((CHANNEL_FREQUENCIES.enum.getD j (0, 0)).1) = false := by
    intro j hj
    rw [enum_getD _ j (Nat.lt_trans hj hk)]
    exact hbefore j hj
  have hstop' : env.stopAtTop ((CHANNEL_FREQUENCIES.enum.getD k (0, 0)).1) = true := by
    rw [enum_getD _ k hk]
    exact hstop
  obtain ⟨_, hStatuses, hTunes, hCaptures⟩ :=
    scanChannels_cancel env m a CHANNEL_FREQUENCIES.enum k [] none hlen hbefore' hstop'
  have hchar : statuses (runScan env m a) =
      startingStatus ::
        ((CHANNEL_FREQUENCIES.enum.take k).flatMap
            (fun p => [testingStatus p.1 p.2, resultStatus p.1 p.2 (infoOf env m p).live])
          ++ [cancelledStatus]) := by
    rw [statuses_runScan, hStatuses]
  refine ⟨hchar, ?_, ?_, ?_⟩
  · rw [tuneFreqs_runScan, hTunes]
  · rw [captures_runScan, hCaptures]
  · intro f hf
    rw [hchar] at hf
    rcases List.mem_cons.mp hf with h1 | h2
    · exact completedStatus_ne_of_head f startingStatus_data_head h1
    rcases List.mem_append.mp h2 with h3 | h4
    · obtain ⟨p, _, hp⟩ := List.mem_flatMap.mp h3
      rcases List.mem_cons.mp hp with he | hp2
      · exact completedStatus_ne_of_head f (testingStatus_data_head p.1 p.2) he
      · have he2 := List.mem_singleton.mp hp2
        exact completedStatus_ne_of_head f (resultStatus_data_head p.1 p.2 _) he2
    · have he3 := List.mem_singleton.mp h4
      exact completedStatus_ne_of_head f cancelledStatus_data_head he3

/-- Witness for `scan_no_actions_after_observed_stop`: the stop flag
becomes set between iterations 1 and 2. -/
theorem scan_no_actions_after_observed_stop_witness :
    ((2 < scanTotal) ∧ (∀ j, j < 2 → envStopAtTwo.stopAtTop j = false) ∧
      envStopAtTwo.stopAtTop 2 = true) ∧
    (statuses (runScan envStopAtTwo 5000 true) =
        startingStatus ::
          ((CHANNEL_FREQUENCIES.enum.take 2).flatMap
              (fun p => [testingStatus p.1 p.2,
                resultStatus p.1 p.2 (infoOf envStopAtTwo 5000 p).live])
            ++ [cancelledStatus]) ∧
      tuneFreqs (runScan envStopAtTwo 5000 true) =
        (CHANNEL_FREQUENCIES.enum.take 2).flatMap
          (fun p => tuneFreqs (probeItems p.1 p.2 (envStopAtTwo.probe p.1))) ∧
      captures (runScan envStopAtTwo 5000 true) =
        (CHANNEL_FREQUENCIES.enum.take 2).flatMap
          (fun p => captures (probeItems p.1 p.2 (envStopAtTwo.probe p.1))) ∧
      ∀ f, completedStatus f ∉ statuses (runScan envStopAtTwo 5000 true)) :=
  ⟨⟨by decide, by decide, by decide⟩,
   scan_no_actions_after_observed_stop envStopAtTwo 5000 true 2
     (by decide) (by decide) (by decide)⟩

/-! ### Claim C6 (liveness classification boundary) -/

/-- Claim C6: a probed channel is classified live exactly when the
captured sample size reaches the threshold
(`live = size >= min_signal_size`); at the boundary, a sample equal to
the threshold `t` classifies as live and one of `t - 1` (for `0 < t`)
classifies as dead.  The default threshold in the source is 5000. -/
theorem probe_live_classification (t idx freq s : Nat) :
    ((probeResult t idx freq (ProbeOutcome.sample s)).live = true ↔ t ≤ s) ∧
    (probeResult t idx freq (ProbeOutcome.sample t)).live = true ∧
    (0 < t → (probeResult t idx freq (ProbeOutcome.sample (t - 1))).live = false) := by
  refine ⟨?_, ?_, ?_⟩
  · simp [probeResult]
  · simp [probeResult]
  · intro ht
    simp [probeResult]
    omega

/-- Witness for `probe_live_classification` at the default threshold
5000: a 5000-byte sample is live, a 4999-byte sample is dead. -/
theorem probe_live_classification_witness :
    (0 < 5000) ∧
    (probeResult 5000 7 5917 (ProbeOutcome.sample 5000)).live = true ∧
    (probeResult 5000 7 5917 (ProbeOutcome.sample 4999)).live = false :=
  ⟨by decide, (probe_live_classification 5000 7 5917 0).2.1,
   (probe_live_classification 5000 7 5917 0).2.2 (by decide)⟩

/-! ### Claim C7 (auto-select of the first live channel) -/

/-- Claim C7: in a scan with auto-select enabled whose loop is never
cancelled at a top-of-loop check, the terminal event is Completed
carrying the full 48 results; the frequency tuned and reported is the one
of the first live channel in index order (`find?` over the enumerated
table) — later live channels never replace it — and exactly one tune call
follows the per-channel tunes when some channel was live, none when no
channel was live (`Completed(none)`). -/
theorem scan_auto_select_first_live (env : ScanEnv) (m : Nat)
    (hns : ∀ j, j < scanTotal → env.stopAtTop j = false) :
    (runScan env m true).getLast? =
        some (ScanItem.progress (fullResults env m)
          (terminalStatus ((CHANNEL_FREQUENCIES.enum.find?
              (fun p => (infoOf env m p).live)).map Prod.snd))) ∧
    tuneFreqs (runScan env m true) =
        perChannelTunes env ++
          terminalTunes ((CHANNEL_FREQUENCIES.enum.find?
            (fun p => (infoOf env m p).live)).map Prod.snd) := by
  have hns' : ∀ p ∈ CHANNEL_FREQUENCIES.enum, env.stopAtTop p.1 = false :=
    fun p hp => hns p.1 (mem_enum_fst_lt hp)
  obtain ⟨hLast, _, hTunes, _⟩ :=
    scanChannels_complete env m true CHANNEL_FREQUENCIES.enum [] none hns'
  have hfl := finalFL_true_eq_find env m CHANNEL_FREQUENCIES.enum
  constructor
  · unfold runScan
    refine getLast?_cons_of_some _ ?_
    rw [hLast, hfl]
    simp [fullResults]
  · rw [tuneFreqs_runScan, hTunes, hfl]
    rfl

/-- Witness for `scan_auto_select_first_live`: channels 3 and 10 are both
live; the engine selects channel 3 (5769 MHz), issuing exactly one
auto-select tune after the 48 per-channel tunes. -/
theorem scan_auto_select_first_live_witness :
    (∀ j, j < scanTotal → envLiveAt3And10.stopAtTop j = false) ∧
    (CHANNEL_FREQUENCIES.enum.find? (fun p => (infoOf envLiveAt3And10 5000 p).live))
      = some (3, 5769) ∧
    tuneFreqs (runScan envLiveAt3And10 5000 true) =
      perChannelTunes envLiveAt3And10 ++ [5769] := by
  refine ⟨by decide, by decide, ?_⟩
  have h := (scan_auto_select_first_live envLiveAt3And10 5000 (by decide)).2
  exact h.trans (by decide)

/-! ### Claim C8 (per-channel tune failure is absorbed) -/

theorem enumFrom_getElem? : ∀ (l : List Nat) (s k : Nat), k < l.length →
    (List.enumFrom s l)[k]? = some (s + k, l.getD k 0) := by
  intro l
  induction l with
  | nil => intro s k h; simp at h
  | cons x xs ih =>
    intro s k hk
    match k with
    | 0 => simp [List.enumFrom]
    | k + 1 =>
      have harith : s + 1 + k = s + (k + 1) := by omega
      rw [List.enumFrom]
      simp only [List.getElem?_cons_succ, List.getD_cons_succ]
      rw [ih (s + 1) k (Nat.lt_of_succ_lt_succ hk), harith]

theorem enum_getElem? (l : List Nat) (k : Nat) (hk : k < l.length) :
    l.enum[k]? = some (k, l.getD k 0) := by
  have h := enumFrom_getElem? l 0 k hk
  rw [Nat.zero_add] at h
  exact h

/-- Claim C8: a channel whose tune call raises during a scan is recorded
as dead (live = false, sampleSize = 0) at its index position, and the
scan continues: with no cancellation the final results still contain all
48 channels in index order, no Cancelled status appears, and no Error
status (`"Scan error: ..."`) is emitted for the per-channel tune failure
(it is caught inside `_probe`, lines 109-119, before the top-level
handler). -/
theorem scan_tune_failure_absorbed (env : ScanEnv) (m : Nat) (a : Bool) (k : Nat)
    (hk : k < scanTotal)
    (hfail : env.probe k = ProbeOutcome.tuneFail)
    (hns : ∀ j, j < scanTotal → env.stopAtTop j = false) :
    lastResults (runScan env m a) = some (fullResults env m) ∧
    (fullResults env m).length = scanTotal ∧
    (fullResults env m).map ChannelInfo.index = List.range scanTotal ∧
    (fullResults env m)[k]? =
      some ⟨k, channel_label k, CHANNEL_FREQUENCIES.getD k 0, false, 0⟩ ∧
    (∀ s ∈ statuses (runScan env m a), isScanError s = false) ∧
    cancelledStatus ∉ statuses (runScan env m a) := by
  have hns' : ∀ p ∈ CHANNEL_FREQUENCIES.enum, env.stopAtTop p.1 = false :=
    fun p hp => hns p.1 (mem_enum_fst_lt hp)
  obtain ⟨hLast, hStatuses, _, _⟩ :=
    scanChannels_complete env m a CHANNEL_FREQUENCIES.enum [] none hns'
  have hgl : (runScan env m a).getLast? =
      some (ScanItem.progress (fullResults env m)
        (terminalStatus (finalFL env m a CHANNEL_FREQUENCIES.enum none))) := by
    unfold runScan
    refine getLast?_cons_of_some _ ?_
    rw [hLast]
    simp [fullResults]
  refine ⟨?_, ?_, ?_, ?_, ?_, ?_⟩
  · unfold lastResults
    rw [hgl]
  · unfold fullResults
    rw [List.length_map, List.enum_length]
    rfl
  · unfold fullResults
    rw [List.map_map]
    have hfun : (ChannelInfo.index ∘ infoOf env m) = Prod.fst :=
      funext fun p => infoOf_index env m p
    rw [hfun, List.enum_map_fst]
    rfl
  · unfold fullResults
    rw [List.getElem?_map, enum_getElem? _ k hk]
    simp [infoOf, hfail, probeResult]
  · rw [statuses_runScan, hStatuses]
    intro s hs
    rcases List.mem_cons.mp hs with h1 | h2
    · rw [h1]; exact isScanError_starting
    rcases List.mem_append.mp h2 with h3 | h4
    · obtain ⟨p, _, hp⟩ := List.mem_flatMap.mp h3
      rcases List.mem_cons.mp hp with he | hp2
      · rw [he]; exact isScanError_testing p.1 p.2
      · rw [List.mem_singleton.mp hp2]; exact isScanError_result p.1 p.2 _
    · rw [List.mem_singleton.mp h4]; exact isScanError_terminal _
  · rw [statuses_runScan, hStatuses]
    intro hmem
    rcases List.mem_cons.mp hmem with h1 | h2
    · exact cancelledStatus_ne_of_get4 startingStatus_get4 h1
    rcases List.mem_append.mp h2 with h3 | h4
    · obtain ⟨p, _, hp⟩ := List.mem_flatMap.mp h3
      rcases List.mem_cons.mp hp with he | hp2
      · exact cancelledStatus_ne_of_get4 (testingStatus_get4 p.1 p.2) he
      · exact cancelledStatus_ne_of_get4 (resultStatus_get4 p.1 p.2 _)
          (List.mem_singleton.mp hp2)
    · exact cancelledStatus_ne_terminal _ (List.mem_singleton.mp h4)

/-- Witness for `scan_tune_failure_absorbed`: the tune of channel 5
raises; the scan still yields 48 results with channel 5 recorded dead. -/
theorem scan_tune_failure_absorbed_witness :
    ((5 < scanTotal) ∧ envTuneFailAt5.probe 5 = ProbeOutcome.tuneFail ∧
      (∀ j, j < scanTotal → envTuneFailAt5.stopAtTop j = false)) ∧
    (lastResults (runScan envTuneFailAt5 5000 true) =
        some (fullResults envTuneFailAt5 5000) ∧
      (fullResults envTuneFailAt5 5000).length = scanTotal ∧
      (fullResults envTuneFailAt5 5000).map ChannelInfo.index = List.range scanTotal ∧
      (fullResults envTuneFailAt5 5000)[5]? =
        some ⟨5, channel_label 5, CHANNEL_FREQUENCIES.getD 5 0, false, 0⟩ ∧
      (∀ s ∈ statuses (runScan envTuneFailAt5 5000 true), isScanError s = false) ∧
      cancelledStatus ∉ statuses (runScan envTuneFailAt5 5000 true)) :=
  ⟨⟨by decide, by decide, by decide⟩,
   scan_tune_failure_absorbed envTuneFailAt5 5000 true 5
     (by decide) (by decide) (by decide)⟩
